import Mathlib

/-!
Shallow embedding of `custom_components/doorman/lock.py` (Yale Doorman lock
adapter for a home-automation host).

Network I/O is modelled by passing each HTTP response (already parsed into the
JSON shape the code accesses) as an explicit argument; the current wall-clock
time and the body the vendor would answer to a fresh login request are likewise
explicit arguments.  The mutable `Doorman` entity object is threaded as an
explicit state value.  A Python exception escaping a method is modelled with
`Except PyError`; mutations of the entity performed before the exception was
raised are preserved (as they are on the Python object), so the fallible
methods return `Doorman × Except PyError α`.
-/

/-- Python exceptions that the embedded methods can raise. -/
inductive PyError where
  /-- `KeyError` from an unguarded dict lookup, carrying the missing key. -/
  | keyError : String → PyError
  /-- `UnboundLocalError`, carrying the name of the unassigned local. -/
  | unboundLocal : String → PyError
  /-- `IndexError` from `[0]` on an empty list. -/
  | indexError : PyError
  deriving DecidableEq, Repr

/-- `Doorman.LOCK_STATE`. -/
def LOCK_STATE : String := "device_status.lock"

/-- `Doorman.UNLOCK_STATE`. -/
def UNLOCK_STATE : String := "device_status.unlock"

/-- The `STATE_ENUM` dict: vendor event-type code to lock-state string. -/
def STATE_ENUM : List (String × String) :=
  [("1816", "device_status.lock"),
   ("1815", "device_status.unlock"),
   ("1807", "device_status.lock"),
   ("1801", "device_status.unlock"),
   ("1802", "device_status.unlock")]

/-- The `NON_LOCK_EVENT` dict (informational-only codes). -/
def NON_LOCK_EVENT : List (String × String) :=
  [("1602", "device_status.lock")]

/-- Dict lookup `STATE_ENUM[k]` as an `Option` (the raising variant is at the
use site in `processEvents`). -/
def stateEnumLookup (k : String) : Option String :=
  (STATE_ENUM.find? fun p => p.1 == k).map Prod.snd

/-- The body the vendor answers to the login request: the fields of
`res.json()` that the code reads. -/
structure LoginResponse where
  access_token : String
  expires_in : Int
  deriving DecidableEq, Repr

/-- The `login_data` dict after `login` stamped it: vendor fields plus the
`loggedin` timestamp. -/
structure LoginData where
  access_token : String
  expires_in : Int
  loggedin : Int
  deriving DecidableEq, Repr

/-- `login(username, password, initial_token)`: returns the vendor body with
the current timestamp stamped under `loggedin`.  (Credentials only select the
response, which is an explicit argument here.) -/
def login (resp : LoginResponse) (now : Int) : LoginData :=
  { access_token := resp.access_token
    expires_in := resp.expires_in
    loggedin := now }

/-- One entry of `data["data"]["device_status"]` in the status-cycle response:
the fields the code reads. -/
structure DeviceEntry where
  device_id : String
  name : String
  status_open : List String
  deriving DecidableEq, Repr

/-- Parsed body of the status-cycle endpoint. -/
structure StatusBody where
  message : String
  device_status : List DeviceEntry
  deriving DecidableEq, Repr

/-- One record of `data["data"]` in the history response: the fields the code
reads. -/
structure HistoryEvent where
  type : String
  report_id : Nat
  name : String
  user : String
  event_type : String
  deriving DecidableEq, Repr

/-- Parsed body of the event-report endpoint. -/
structure HistoryBody where
  message : String
  data : List HistoryEvent
  deriving DecidableEq, Repr

/-- An HTTP response: status code plus parsed JSON body. -/
structure HttpResponse (α : Type) where
  status_code : Nat
  body : α
  deriving DecidableEq, Repr

/-- The `Doorman` entity: the instance attributes set by `__init__`.
`state` is an `Option` because `self._state` can become Python `None`
(`update` assigns the result of `get_state`, which can return `None`). -/
structure Doorman where
  state : Option String
  username : String
  password : String
  login_data : LoginData
  device_id : String
  initial_token : String
  name : String
  report_ids : List Nat
  deriving DecidableEq, Repr

/-- `Doorman.is_locked`. -/
def Doorman.is_locked (d : Doorman) : Bool :=
  d.state == some LOCK_STATE

/-- `Doorman.lock`: the body is empty (the change request is commented out). -/
def Doorman.lock (d : Doorman) : Doorman := d

/-- `Doorman.unlock`: the body is empty (the change request is commented out). -/
def Doorman.unlock (d : Doorman) : Doorman := d

/-- `Doorman.validate_access_token`: re-login iff
`login_data["loggedin"] + login_data["expires_in"] <= timestamp - 1000`.
The returned `Bool` records whether a new login was performed. -/
def Doorman.validate_access_token (d : Doorman) (now : Int)
    (resp : LoginResponse) : Doorman × Bool :=
  if d.login_data.loggedin + d.login_data.expires_in ≤ now - 1000 then
    ({ d with login_data := login resp now }, true)
  else
    (d, false)

/-- The `for device in devices` loop of `Doorman.get_state`: for each entry,
read `status_open[0]` (IndexError when empty), then return it if the name
matches; falling off the loop end returns Python `None` (`Except.ok none`). -/
def findStateLoop : List DeviceEntry → String → Except PyError (Option String)
  | [], _ => Except.ok none
  | dev :: rest, nm =>
    match dev.status_open.head? with
    | none => Except.error PyError.indexError
    | some st =>
      if dev.name = nm then Except.ok (some st) else findStateLoop rest nm

/-- Body of `Doorman.get_state` after the token check: non-200 and non-"OK!"
responses fall through to the implicit `return None`. -/
def Doorman.get_state_body (d : Doorman) (sresp : HttpResponse StatusBody) :
    Except PyError (Option String) :=
  if sresp.status_code = 200 then
    if sresp.body.message = "OK!" then
      findStateLoop sresp.body.device_status d.name
    else Except.ok none
  else Except.ok none

/-- `Doorman.get_state`: validate the token, then scan the status response. -/
def Doorman.get_state (d : Doorman) (now : Int) (resp : LoginResponse)
    (sresp : HttpResponse StatusBody) : Doorman × Except PyError (Option String) :=
  let d1 := (d.validate_access_token now resp).1
  (d1, d1.get_state_body sresp)

/-- The `for event in data.get("data")` loop of `Doorman.get_state_history`:
threads `self.report_ids` and the local `states` list.  In the source the
`report_ids.append` runs before the informational-table test, so the id is
recorded in every branch below the two skips; the unguarded
`STATE_ENUM[event_type]` raises `KeyError`, and the `report_ids` appended
before the raise are kept (the Python list was mutated in place). -/
def processEvents :
    List HistoryEvent → List Nat → List String → List Nat × Except PyError (List String)
  | [], ids, states => (ids, Except.ok states)
  | e :: rest, ids, states =>
    if e.type = "device_type.door_lock" then
      if e.report_id ∈ ids then
        processEvents rest ids states
      else
        if e.event_type ∈ NON_LOCK_EVENT.map Prod.fst then
          processEvents rest (ids ++ [e.report_id]) states
        else
          match stateEnumLookup e.event_type with
          | none => (ids ++ [e.report_id], Except.error (PyError.keyError e.event_type))
          | some st => processEvents rest (ids ++ [e.report_id]) (states ++ [st])
    else
      processEvents rest ids states

/-- `Doorman.get_state_history`.  The local `states` is only assigned inside
the `status_code == 200` branch, yet `return states` sits outside it: a
non-200 response reaches `return states` with `states` unassigned, raising
`UnboundLocalError`. -/
def Doorman.get_state_history (d : Doorman) (now : Int) (resp : LoginResponse)
    (hresp : HttpResponse HistoryBody) : Doorman × Except PyError (List String) :=
  let d1 := (d.validate_access_token now resp).1
  if hresp.status_code = 200 then
    if hresp.body.message = "OK!" then
      match processEvents hresp.body.data d1.report_ids [] with
      | (ids2, r) => ({ d1 with report_ids := ids2 }, r)
    else (d1, Except.ok [])
  else (d1, Except.error (PyError.unboundLocal "states"))

/-- The `for state in states` loop of `Doorman.update`: each history-derived
state is assigned to `self._state` in turn (and published), so the net effect
on the field is the last element, when there is one. -/
def applyHistoryStates (d : Doorman) (states : List String) : Doorman :=
  match states.getLast? with
  | some s => { d with state := some s }
  | none => d

/-- `Doorman.update`: replay the new history states (net effect on `_state`
is the last one, each intermediate one being published), then overwrite
`_state` with the `get_state` result.  An exception from either fetch escapes
`update` with the mutations made so far kept. -/
def Doorman.update (d : Doorman) (now : Int) (resp : LoginResponse)
    (hresp : HttpResponse HistoryBody) (sresp : HttpResponse StatusBody) :
    Doorman × Except PyError Unit :=
  match d.get_state_history now resp hresp with
  | (d1, Except.error e) => (d1, Except.error e)
  | (d1, Except.ok states) =>
    match (applyHistoryStates d1 states).get_state now resp sresp with
    | (d3, Except.error e) => (d3, Except.error e)
    | (d3, Except.ok st) => ({ d3 with state := st }, Except.ok ())

/-- The three ways the status fetch fails to produce a state for this entity:
transport failure (non-200), failure marker, or no device entry whose name
matches. -/
def statusLookupFails (nm : String) (sresp : HttpResponse StatusBody) : Prop :=
  sresp.status_code ≠ 200 ∨ sresp.body.message ≠ "OK!" ∨
    findStateLoop sresp.body.device_status nm = Except.ok none

/-! ### Concrete fixtures used by counterexamples, bug evaluations and
witnesses -/

def exLoginData : LoginData :=
  { access_token := "tokA", expires_in := 100, loggedin := 0 }

def exFresh : LoginResponse :=
  { access_token := "tokB", expires_in := 3600 }

def mkDoorman (st : Option String) (ids : List Nat) : Doorman :=
  { state := st
    username := "user"
    password := "pw"
    login_data := exLoginData
    device_id := "dev1"
    initial_token := "boot"
    name := "Front Door"
    report_ids := ids }

def evUnlock : HistoryEvent :=
  { type := "device_type.door_lock", report_id := 1, name := "Front Door",
    user := "alice", event_type := "1801" }

def evLock : HistoryEvent :=
  { type := "device_type.door_lock", report_id := 2, name := "Front Door",
    user := "alice", event_type := "1807" }

def evBadCode : HistoryEvent :=
  { type := "device_type.door_lock", report_id := 1, name := "Front Door",
    user := "alice", event_type := "9999" }

def histBadCode : HttpResponse HistoryBody :=
  { status_code := 200, body := { message := "OK!", data := [evBadCode, evLock] } }

def histNon200 : HttpResponse HistoryBody :=
  { status_code := 500, body := { message := "OK!", data := [] } }

def histBadMarker : HttpResponse HistoryBody :=
  { status_code := 200, body := { message := "Failed", data := [] } }

def histTwo : HttpResponse HistoryBody :=
  { status_code := 200, body := { message := "OK!", data := [evUnlock, evLock] } }

def histEmptyOk : HttpResponse HistoryBody :=
  { status_code := 200, body := { message := "OK!", data := [] } }

def evHistLock : HistoryEvent :=
  { type := "device_type.door_lock", report_id := 9, name := "Front Door",
    user := "alice", event_type := "1807" }

def histOneLock : HttpResponse HistoryBody :=
  { status_code := 200, body := { message := "OK!", data := [evHistLock] } }

def entryMismatch : DeviceEntry :=
  { device_id := "dev2", name := "Back Door",
    status_open := ["device_status.unlock"] }

def entryMatch : DeviceEntry :=
  { device_id := "dev1", name := "Front Door",
    status_open := ["device_status.unlock"] }

def statusRespMismatch : HttpResponse StatusBody :=
  { status_code := 200, body := { message := "OK!", device_status := [entryMismatch] } }

def statusRespMatch : HttpResponse StatusBody :=
  { status_code := 200, body := { message := "OK!", device_status := [entryMatch] } }

/-! ### Helper lemmas -/

theorem validate_access_token_report_ids (d : Doorman) (now : Int)
    (resp : LoginResponse) :
    (d.validate_access_token now resp).1.report_ids = d.report_ids := by
  unfold Doorman.validate_access_token
  split <;> rfl

theorem validate_access_token_name (d : Doorman) (now : Int)
    (resp : LoginResponse) :
    (d.validate_access_token now resp).1.name = d.name := by
  unfold Doorman.validate_access_token
  split <;> rfl

theorem get_state_history_name (d : Doorman) (now : Int) (resp : LoginResponse)
    (hresp : HttpResponse HistoryBody) :
    (d.get_state_history now resp hresp).1.name = d.name := by
  unfold Doorman.get_state_history
  split
  · split
    · exact validate_access_token_name d now resp
    · exact validate_access_token_name d now resp
  · exact validate_access_token_name d now resp

theorem processEvents_cons_notDoor (e : HistoryEvent) (rest : List HistoryEvent)
    (ids : List Nat) (sts : List String)
    (htype : e.type ≠ "device_type.door_lock") :
    processEvents (e :: rest) ids sts = processEvents rest ids sts := by
  simp only [processEvents]
  rw [if_neg htype]

theorem processEvents_cons_seen (e : HistoryEvent) (rest : List HistoryEvent)
    (ids : List Nat) (sts : List String)
    (hseen : e.report_id ∈ ids) :
    processEvents (e :: rest) ids sts = processEvents rest ids sts := by
  simp only [processEvents]
  by_cases htype : e.type = "device_type.door_lock"
  · rw [if_pos htype, if_pos hseen]
  · rw [if_neg htype]

theorem processEvents_cons_nonLock (e : HistoryEvent) (rest : List HistoryEvent)
    (ids : List Nat) (sts : List String)
    (htype : e.type = "device_type.door_lock")
    (hnew : e.report_id ∉ ids)
    (hinfo : e.event_type ∈ NON_LOCK_EVENT.map Prod.fst) :
    processEvents (e :: rest) ids sts
      = processEvents rest (ids ++ [e.report_id]) sts := by
  simp only [processEvents]
  rw [if_pos htype, if_neg hnew, if_pos hinfo]

theorem processEvents_cons_new (e : HistoryEvent) (rest : List HistoryEvent)
    (ids : List Nat) (sts : List String) (st : String)
    (htype : e.type = "device_type.door_lock")
    (hnew : e.report_id ∉ ids)
    (hinfo : e.event_type ∉ NON_LOCK_EVENT.map Prod.fst)
    (hlook : stateEnumLookup e.event_type = some st) :
    processEvents (e :: rest) ids sts
      = processEvents rest (ids ++ [e.report_id]) (sts ++ [st]) := by
  simp only [processEvents]
  rw [if_pos htype, if_neg hnew, if_neg hinfo, hlook]

theorem processEvents_cons_badCode (e : HistoryEvent) (rest : List HistoryEvent)
    (ids : List Nat) (sts : List String)
    (htype : e.type = "device_type.door_lock")
    (hnew : e.report_id ∉ ids)
    (hinfo : e.event_type ∉ NON_LOCK_EVENT.map Prod.fst)
    (hlook : stateEnumLookup e.event_type = none) :
    processEvents (e :: rest) ids sts
      = (ids ++ [e.report_id], Except.error (PyError.keyError e.event_type)) := by
  simp only [processEvents]
  rw [if_pos htype, if_neg hnew, if_neg hinfo, hlook]

theorem get_state_history_ok (d : Doorman) (now : Int) (resp : LoginResponse)
    (hresp : HttpResponse HistoryBody)
    (h200 : hresp.status_code = 200) (hmsg : hresp.body.message = "OK!") :
    d.get_state_history now resp hresp =
      ({ (d.validate_access_token now resp).1 with
          report_ids := (processEvents hresp.body.data d.report_ids []).1 },
       (processEvents hresp.body.data d.report_ids []).2) := by
  simp only [Doorman.get_state_history]
  rw [validate_access_token_report_ids, if_pos h200, if_pos hmsg]

/-! ### Claim theorems -/

/-- C1, counterexample: a session whose expiry lies 400 seconds in the past at
the time of the check.  The claim says `validate_access_token` performs a new
login and replaces the stored session; the code leaves the entity unchanged
and performs no login, because the condition compares against `now - 1000`. -/
theorem C1_counterexample :
    (mkDoorman (some LOCK_STATE) []).login_data.loggedin
        + (mkDoorman (some LOCK_STATE) []).login_data.expires_in < 500 ∧
    (mkDoorman (some LOCK_STATE) []).validate_access_token 500 exFresh
      = (mkDoorman (some LOCK_STATE) [], false) := by
  exact ⟨by decide, rfl⟩

/-- C1, amended: `validate_access_token` performs exactly one new login and
replaces the stored session iff `logged_in_at + expires_in ≤ now - 1000`,
i.e. only once expiry lies at least 1000 seconds in the past (the 1000-second
offset widens the accepted window instead of narrowing it); any other
session, including one already expired by less than 1000 seconds, is left
unchanged and no login is performed. -/
theorem C1_corrected (d : Doorman) (now : Int) (resp : LoginResponse) :
    (d.login_data.loggedin + d.login_data.expires_in ≤ now - 1000 →
      (d.validate_access_token now resp).2 = true ∧
      (d.validate_access_token now resp).1
        = { d with login_data := login resp now }) ∧
    (now - 1000 < d.login_data.loggedin + d.login_data.expires_in →
      d.validate_access_token now resp = (d, false)) := by
  constructor
  · intro h
    unfold Doorman.validate_access_token
    rw [if_pos h]
    exact ⟨rfl, rfl⟩
  · intro h
    unfold Doorman.validate_access_token
    rw [if_neg (not_le.mpr h)]

/-- C1, witness: at `now = 5000` the fixture session (expiry at 100) is
refreshed; at `now = 500` it is left unchanged. -/
theorem C1_witness :
    ((mkDoorman (some LOCK_STATE) []).validate_access_token 5000 exFresh).2
        = true ∧
    (mkDoorman none []).validate_access_token 500 exFresh
        = (mkDoorman none [], false) := by
  constructor
  · exact ((C1_corrected (mkDoorman (some LOCK_STATE) []) 5000 exFresh).1
      (by decide)).1
  · exact (C1_corrected (mkDoorman none []) 500 exFresh).2 (by decide)

/-- C2, code bug: a batch holding a door-lock event with the unrecognized
code "9999" followed by a recognizable event.  `get_state_history` raises
`KeyError` at the first event; the second event is never processed (its
report id is not consumed), so the batch is aborted rather than the single
event skipped. -/
theorem C2_bug :
    ((mkDoorman (some LOCK_STATE) []).get_state_history 0 exFresh histBadCode).2
        = Except.error (PyError.keyError "9999") ∧
    1 ∈ ((mkDoorman (some LOCK_STATE) []).get_state_history 0 exFresh
          histBadCode).1.report_ids ∧
    2 ∉ ((mkDoorman (some LOCK_STATE) []).get_state_history 0 exFresh
          histBadCode).1.report_ids := by
  refine ⟨rfl, by decide, by decide⟩

/-- C6, code bug: a non-200 history response makes `get_state_history` raise
`UnboundLocalError` on `return states` (the local is only assigned inside the
200 branch) instead of returning the empty sequence; the failure-marker half
of the claim does hold (empty sequence returned). -/
theorem C6_bug :
    ((mkDoorman (some LOCK_STATE) []).get_state_history 0 exFresh histNon200).2
        = Except.error (PyError.unboundLocal "states") ∧
    ((mkDoorman (some LOCK_STATE) []).get_state_history 0 exFresh histBadMarker).2
        = Except.ok [] := by
  exact ⟨rfl, rfl⟩

/-- C7: a door-lock event with the informational code "1602" and an unseen
report id contributes no state to the output (processing continues exactly as
for the rest of the batch with unchanged output accumulator), yet its report
id becomes a member of the seen set. -/
theorem C7_informational (e : HistoryEvent) (rest : List HistoryEvent)
    (ids : List Nat) (sts : List String)
    (htype : e.type = "device_type.door_lock")
    (hcode : e.event_type = "1602")
    (hnew : e.report_id ∉ ids) :
    processEvents (e :: rest) ids sts
      = processEvents rest (ids ++ [e.report_id]) sts ∧
    e.report_id ∈ ids ++ [e.report_id] := by
  constructor
  · refine processEvents_cons_nonLock e rest ids sts htype hnew ?_
    rw [hcode]
    decide
  · exact List.mem_append_right _ (List.mem_singleton.mpr rfl)

/-- C7, witness: the fixture event with code "1602" on an entity that has
seen report id 7 but not 3. -/
theorem C7_witness :
    processEvents
        [{ type := "device_type.door_lock", report_id := 3, name := "Front Door",
           user := "alice", event_type := "1602" }] [7] []
      = processEvents [] ([7] ++ [3]) [] ∧
    3 ∈ [7] ++ [3] := by
  exact C7_informational
    { type := "device_type.door_lock", report_id := 3, name := "Front Door",
      user := "alice", event_type := "1602" } [] [7] [] rfl rfl (by decide)

/-- C9: `lock` and `unlock` have empty bodies; every field of the entity —
state, session, seen report ids, name, device identifier and credentials —
is unchanged. -/
theorem C9_noop (d : Doorman) :
    d.lock = d ∧ d.unlock = d ∧
    d.lock.state = d.state ∧ d.lock.login_data = d.login_data ∧
    d.lock.report_ids = d.report_ids ∧ d.lock.name = d.name ∧
    d.lock.device_id = d.device_id ∧ d.lock.username = d.username ∧
    d.lock.password = d.password ∧ d.lock.initial_token = d.initial_token ∧
    d.unlock.state = d.state ∧ d.unlock.login_data = d.login_data ∧
    d.unlock.report_ids = d.report_ids ∧ d.unlock.name = d.name ∧
    d.unlock.device_id = d.device_id ∧ d.unlock.username = d.username ∧
    d.unlock.password = d.password ∧ d.unlock.initial_token = d.initial_token := by
  exact ⟨rfl, rfl, rfl, rfl, rfl, rfl, rfl, rfl, rfl, rfl, rfl, rfl, rfl, rfl,
    rfl, rfl, rfl, rfl⟩

theorem get_state_eq (d : Doorman) (now : Int) (resp : LoginResponse)
    (sresp : HttpResponse StatusBody) :
    d.get_state now resp sresp
      = ((d.validate_access_token now resp).1,
        ((d.validate_access_token now resp).1).get_state_body sresp) := rfl

theorem applyHistoryStates_name (d : Doorman) (states : List String) :
    (applyHistoryStates d states).name = d.name := by
  unfold applyHistoryStates
  rcases states.getLast? with _ | s <;> rfl

theorem get_state_body_of_fails (d : Doorman) (sresp : HttpResponse StatusBody)
    (h : statusLookupFails d.name sresp) :
    d.get_state_body sresp = Except.ok none := by
  unfold Doorman.get_state_body
  rcases h with h | h | h
  · rw [if_neg h]
  · by_cases h200 : sresp.status_code = 200
    · rw [if_pos h200, if_neg h]
    · rw [if_neg h200]
  · by_cases h200 : sresp.status_code = 200
    · by_cases hmsg : sresp.body.message = "OK!"
      · rw [if_pos h200, if_pos hmsg]
        exact h
      · rw [if_pos h200, if_neg hmsg]
    · rw [if_neg h200]

theorem update_err_of_hist_err (d : Doorman) (now : Int) (resp : LoginResponse)
    (hresp : HttpResponse HistoryBody) (sresp : HttpResponse StatusBody)
    (d1 : Doorman) (err : PyError)
    (hgh : d.get_state_history now resp hresp = (d1, Except.error err)) :
    d.update now resp hresp sresp = (d1, Except.error err) := by
  unfold Doorman.update
  rw [hgh]

theorem update_of_hist_ok (d : Doorman) (now : Int) (resp : LoginResponse)
    (hresp : HttpResponse HistoryBody) (sresp : HttpResponse StatusBody)
    (d1 : Doorman) (states : List String)
    (hgh : d.get_state_history now resp hresp = (d1, Except.ok states)) :
    d.update now resp hresp sresp
      = (match (applyHistoryStates d1 states).get_state now resp sresp with
         | (d3, Except.error e) => (d3, Except.error e)
         | (d3, Except.ok st) => ({ d3 with state := st }, Except.ok ())) := by
  unfold Doorman.update
  rw [hgh]

theorem update_ok_gets (d : Doorman) (now : Int) (resp : LoginResponse)
    (hresp : HttpResponse HistoryBody) (sresp : HttpResponse StatusBody)
    (d1 : Doorman) (states : List String) (res : Option String)
    (hgh : d.get_state_history now resp hresp = (d1, Except.ok states))
    (hbody : ∀ d' : Doorman, d'.name = d.name →
      d'.get_state_body sresp = Except.ok res) :
    (d.update now resp hresp sresp).1.state = res ∧
    (d.update now resp hresp sresp).2 = Except.ok () := by
  have hdname : d1.name = d.name := by
    have h := get_state_history_name d now resp hresp
    rw [hgh] at h
    exact h
  have hname : ((applyHistoryStates d1 states).validate_access_token now resp).1.name
      = d.name := by
    rw [validate_access_token_name, applyHistoryStates_name, hdname]
  have hgs : (applyHistoryStates d1 states).get_state now resp sresp
      = (((applyHistoryStates d1 states).validate_access_token now resp).1,
         Except.ok res) := by
    rw [get_state_eq, hbody _ hname]
  rw [update_of_hist_ok d now resp hresp sresp d1 states hgh, hgs]
  exact ⟨rfl, rfl⟩

/-- C8: a batch of two never-seen door-lock events with codes "1801" then
"1807" reconciles to exactly `[Unlocked, Locked]` in received order. -/
theorem C8_ordering (d : Doorman) (now : Int) (resp : LoginResponse)
    (h1 : 1 ∉ d.report_ids) (h2 : 2 ∉ d.report_ids) :
    (d.get_state_history now resp histTwo).2
      = Except.ok [UNLOCK_STATE, LOCK_STATE] := by
  rw [get_state_history_ok d now resp histTwo rfl rfl]
  show (processEvents [evUnlock, evLock] d.report_ids []).2
      = Except.ok [UNLOCK_STATE, LOCK_STATE]
  have h2' : evLock.report_id ∉ d.report_ids ++ [evUnlock.report_id] := by
    intro hmem
    rcases List.mem_append.mp hmem with hmem | hmem
    · exact h2 hmem
    · exact absurd (List.mem_singleton.mp hmem) (by decide)
  rw [processEvents_cons_new evUnlock [evLock] d.report_ids [] UNLOCK_STATE rfl h1
      (by decide) rfl]
  rw [processEvents_cons_new evLock [] (d.report_ids ++ [evUnlock.report_id])
      ([] ++ [UNLOCK_STATE]) LOCK_STATE rfl h2' (by decide) rfl]
  rfl

/-- C8, witness: the fixture entity with an empty seen set. -/
theorem C8_witness :
    ((mkDoorman (some LOCK_STATE) []).get_state_history 7 exFresh histTwo).2
      = Except.ok [UNLOCK_STATE, LOCK_STATE] := by
  exact C8_ordering (mkDoorman (some LOCK_STATE) []) 7 exFresh (by decide) (by decide)

/-- C4: when the update cycle completes normally and the status fetch
succeeded (200, "OK!" marker, a device entry matching the stored name), the
final lock state equals the raw state from the status snapshot, overriding
whatever the last history-derived state was. -/
theorem C4_status_authority (d : Doorman) (now : Int) (resp : LoginResponse)
    (hresp : HttpResponse HistoryBody) (sresp : HttpResponse StatusBody)
    (raw : String)
    (hok : (d.update now resp hresp sresp).2 = Except.ok ())
    (h200 : sresp.status_code = 200) (hmsg : sresp.body.message = "OK!")
    (hfind : findStateLoop sresp.body.device_status d.name
      = Except.ok (some raw)) :
    (d.update now resp hresp sresp).1.state = some raw := by
  rcases hgh : d.get_state_history now resp hresp with ⟨d1, r1⟩
  cases r1 with
  | error e =>
    rw [update_err_of_hist_err d now resp hresp sresp d1 e hgh] at hok
    simp at hok
  | ok states =>
    refine (update_ok_gets d now resp hresp sresp d1 states (some raw) hgh ?_).1
    intro d' hn
    unfold Doorman.get_state_body
    rw [if_pos h200, if_pos hmsg, hn, hfind]

/-- C4, witness: history yields `[Locked]` but the snapshot's matching entry
says unlocked; the final state is Unlocked. -/
theorem C4_witness :
    ((mkDoorman (some LOCK_STATE) []).update 0 exFresh histOneLock
        statusRespMatch).1.state
      = some UNLOCK_STATE := by
  exact C4_status_authority (mkDoorman (some LOCK_STATE) []) 0 exFresh histOneLock
    statusRespMatch UNLOCK_STATE rfl rfl rfl rfl

/-- C3, counterexample: prior state Locked, empty history, status fetch whose
only device entry has a different name.  The claim says the prior state is
retained; the code's `self._state = self.get_state()` assigns Python `None`,
so the state after the cycle differs from the prior value. -/
theorem C3_counterexample :
    statusLookupFails (mkDoorman (some LOCK_STATE) []).name statusRespMismatch ∧
    ((mkDoorman (some LOCK_STATE) []).update 0 exFresh histEmptyOk
        statusRespMismatch).2 = Except.ok () ∧
    ((mkDoorman (some LOCK_STATE) []).update 0 exFresh histEmptyOk
        statusRespMismatch).1.state = none ∧
    ((mkDoorman (some LOCK_STATE) []).update 0 exFresh histEmptyOk
        statusRespMismatch).1.state ≠ (mkDoorman (some LOCK_STATE) []).state := by
  refine ⟨Or.inr (Or.inr rfl), rfl, rfl, ?_⟩
  intro h
  rw [show ((mkDoorman (some LOCK_STATE) []).update 0 exFresh histEmptyOk
      statusRespMismatch).1.state = none from rfl] at h
  exact Option.noConfusion h

/-- C3, amended: when the status fetch fails (non-200, failure marker, or no
device entry matching the stored name) and the cycle completes, the lock
state after the cycle is `None` (cleared), not the prior value; `get_state`
returns Python `None` and `update` assigns it unconditionally. -/
theorem C3_corrected (d : Doorman) (now : Int) (resp : LoginResponse)
    (hresp : HttpResponse HistoryBody) (sresp : HttpResponse StatusBody)
    (hok : (d.update now resp hresp sresp).2 = Except.ok ())
    (hfail : statusLookupFails d.name sresp) :
    (d.update now resp hresp sresp).1.state = none := by
  rcases hgh : d.get_state_history now resp hresp with ⟨d1, r1⟩
  cases r1 with
  | error e =>
    rw [update_err_of_hist_err d now resp hresp sresp d1 e hgh] at hok
    simp at hok
  | ok states =>
    refine (update_ok_gets d now resp hresp sresp d1 states none hgh ?_).1
    intro d' hn
    refine get_state_body_of_fails d' sresp ?_
    rw [hn]
    exact hfail

/-- C3, witness: an entity holding state Unlocked before a cycle whose status
fetch has no matching entry ends with state `None`. -/
theorem C3_witness :
    ((mkDoorman (some UNLOCK_STATE) [5]).update 0 exFresh histEmptyOk
        statusRespMismatch).1.state = none := by
  exact C3_corrected (mkDoorman (some UNLOCK_STATE) [5]) 0 exFresh histEmptyOk
    statusRespMismatch rfl (Or.inr (Or.inr rfl))

theorem processEvents_mono (evs : List HistoryEvent) :
    ∀ (ids : List Nat) (sts : List String) (x : Nat),
      x ∈ ids → x ∈ (processEvents evs ids sts).1 := by
  induction evs with
  | nil =>
    intro ids sts x hx
    simpa [processEvents] using hx
  | cons e rest ih =>
    intro ids sts x hx
    by_cases htype : e.type = "device_type.door_lock"
    · by_cases hseen : e.report_id ∈ ids
      · rw [processEvents_cons_seen e rest ids sts hseen]
        exact ih ids sts x hx
      · by_cases hinfo : e.event_type ∈ NON_LOCK_EVENT.map Prod.fst
        · rw [processEvents_cons_nonLock e rest ids sts htype hseen hinfo]
          exact ih _ _ x (List.mem_append_left _ hx)
        · cases hlook : stateEnumLookup e.event_type with
          | none =>
            rw [processEvents_cons_badCode e rest ids sts htype hseen hinfo hlook]
            exact List.mem_append_left _ hx
          | some st =>
            rw [processEvents_cons_new e rest ids sts st htype hseen hinfo hlook]
            exact ih _ _ x (List.mem_append_left _ hx)
    · rw [processEvents_cons_notDoor e rest ids sts htype]
      exact ih ids sts x hx

theorem processEvents_covers (evs : List HistoryEvent) :
    ∀ (ids ids' : List Nat) (sts out : List String),
      processEvents evs ids sts = (ids', Except.ok out) →
      ∀ e ∈ evs, e.type = "device_type.door_lock" → e.report_id ∈ ids' := by
  induction evs with
  | nil =>
    intro ids ids' sts out _ e he
    exact absurd he (List.not_mem_nil e)
  | cons e0 rest ih =>
    intro ids ids' sts out h e he htype
    rcases List.mem_cons.mp he with rfl | hrest
    · by_cases hseen : e.report_id ∈ ids
      · rw [processEvents_cons_seen e rest ids sts hseen] at h
        have hm := processEvents_mono rest ids sts e.report_id hseen
        rw [h] at hm
        exact hm
      · by_cases hinfo : e.event_type ∈ NON_LOCK_EVENT.map Prod.fst
        · rw [processEvents_cons_nonLock e rest ids sts htype hseen hinfo] at h
          have hm := processEvents_mono rest (ids ++ [e.report_id]) sts e.report_id
            (List.mem_append_right _ (List.mem_singleton.mpr rfl))
          rw [h] at hm
          exact hm
        · cases hlook : stateEnumLookup e.event_type with
          | none =>
            rw [processEvents_cons_badCode e rest ids sts htype hseen hinfo hlook] at h
            injection h with h1 h2
            exact absurd h2 (by simp)
          | some st =>
            rw [processEvents_cons_new e rest ids sts st htype hseen hinfo hlook] at h
            have hm := processEvents_mono rest (ids ++ [e.report_id]) (sts ++ [st])
              e.report_id (List.mem_append_right _ (List.mem_singleton.mpr rfl))
            rw [h] at hm
            exact hm
    · by_cases htype0 : e0.type = "device_type.door_lock"
      · by_cases hseen : e0.report_id ∈ ids
        · rw [processEvents_cons_seen e0 rest ids sts hseen] at h
          exact ih ids ids' sts out h e hrest htype
        · by_cases hinfo : e0.event_type ∈ NON_LOCK_EVENT.map Prod.fst
          · rw [processEvents_cons_nonLock e0 rest ids sts htype0 hseen hinfo] at h
            exact ih _ ids' sts out h e hrest htype
          · cases hlook : stateEnumLookup e0.event_type with
            | none =>
              rw [processEvents_cons_badCode e0 rest ids sts htype0 hseen hinfo hlook] at h
              injection h with h1 h2
              exact absurd h2 (by simp)
            | some st =>
              rw [processEvents_cons_new e0 rest ids sts st htype0 hseen hinfo hlook] at h
              exact ih _ ids' _ out h e hrest htype
      · rw [processEvents_cons_notDoor e0 rest ids sts htype0] at h
        exact ih ids ids' sts out h e hrest htype

theorem processEvents_noop (evs : List HistoryEvent) :
    ∀ (ids : List Nat) (sts : List String),
      (∀ e ∈ evs, e.type = "device_type.door_lock" → e.report_id ∈ ids) →
      processEvents evs ids sts = (ids, Except.ok sts) := by
  induction evs with
  | nil => intro ids sts _; rfl
  | cons e rest ih =>
    intro ids sts hall
    by_cases htype : e.type = "device_type.door_lock"
    · rw [processEvents_cons_seen e rest ids sts
        (hall e (List.mem_cons_self e rest) htype)]
      exact ih ids sts fun e' he' => hall e' (List.mem_cons_of_mem e he')
    · rw [processEvents_cons_notDoor e rest ids sts htype]
      exact ih ids sts fun e' he' => hall e' (List.mem_cons_of_mem e he')

/-- C5, counterexample: a batch holding an unrecognized-code event followed
by a recognizable one, on an entity with an empty seen set.  The first replay
raises `KeyError` (after consuming the first event's report id); replaying
the identical batch a second time yields `[Locked]`, not the empty output. -/
theorem C5_counterexample :
    ((mkDoorman (some LOCK_STATE) []).get_state_history 0 exFresh histBadCode).2
      = Except.error (PyError.keyError "9999") ∧
    (((mkDoorman (some LOCK_STATE) []).get_state_history 0 exFresh
        histBadCode).1.get_state_history 0 exFresh histBadCode).2
      = Except.ok [LOCK_STATE] ∧
    (((mkDoorman (some LOCK_STATE) []).get_state_history 0 exFresh
        histBadCode).1.get_state_history 0 exFresh histBadCode).2
      ≠ Except.ok [] := by
  refine ⟨rfl, rfl, ?_⟩
  intro h
  rw [show (((mkDoorman (some LOCK_STATE) []).get_state_history 0 exFresh
      histBadCode).1.get_state_history 0 exFresh histBadCode).2
      = Except.ok [LOCK_STATE] from rfl] at h
  injection h with h1
  exact List.cons_ne_nil _ _ h1

/-- C5, amended: report-id deduplication holds per event — an event whose
report id is already in the seen set produces no output state and no change
to the seen set — and when a first replay of a batch completes without an
unrecognized-code error, replaying the identical batch a second time yields
the empty output. -/
theorem C5_corrected (e : HistoryEvent) (rest : List HistoryEvent)
    (ids : List Nat) (sts : List String)
    (d : Doorman) (now now2 : Int) (resp resp2 : LoginResponse)
    (hresp : HttpResponse HistoryBody) (states : List String)
    (hseen : e.report_id ∈ ids)
    (hfst : (d.get_state_history now resp hresp).2 = Except.ok states) :
    processEvents (e :: rest) ids sts = processEvents rest ids sts ∧
    ((d.get_state_history now resp hresp).1.get_state_history now2 resp2 hresp).2
      = Except.ok [] := by
  refine ⟨processEvents_cons_seen e rest ids sts hseen, ?_⟩
  by_cases h200 : hresp.status_code = 200
  · by_cases hmsg : hresp.body.message = "OK!"
    · rw [get_state_history_ok d now resp hresp h200 hmsg] at hfst ⊢
      rw [get_state_history_ok _ now2 resp2 hresp h200 hmsg]
      have hPe : processEvents hresp.body.data d.report_ids []
          = ((processEvents hresp.body.data d.report_ids []).1,
             Except.ok states) := by
        rw [← hfst]
      have hcov := processEvents_covers hresp.body.data d.report_ids
        (processEvents hresp.body.data d.report_ids []).1 [] states hPe
      show (processEvents hresp.body.data
          (processEvents hresp.body.data d.report_ids []).1 []).2 = Except.ok []
      rw [processEvents_noop hresp.body.data
        (processEvents hresp.body.data d.report_ids []).1 [] hcov]
    · have h1 : ∀ (dd : Doorman) (n : Int) (r : LoginResponse),
          dd.get_state_history n r hresp
            = ((dd.validate_access_token n r).1, Except.ok []) := by
        intro dd n r
        simp only [Doorman.get_state_history]
        rw [if_pos h200, if_neg hmsg]
      simp only [h1]
  · have h1 : d.get_state_history now resp hresp
        = ((d.validate_access_token now resp).1,
           Except.error (PyError.unboundLocal "states")) := by
      simp only [Doorman.get_state_history]
      rw [if_neg h200]
    rw [h1] at hfst
    exact Except.noConfusion hfst

/-- C5, witness: a seen event (report id 2 with seen set `[2, 7]`), and a
clean first replay of the two-event fixture batch followed by an empty
second replay. -/
theorem C5_witness :
    processEvents [evLock] [2, 7] [] = processEvents [] [2, 7] [] ∧
    (((mkDoorman (some LOCK_STATE) []).get_state_history 0 exFresh
        histTwo).1.get_state_history 0 exFresh histTwo).2 = Except.ok [] := by
  exact C5_corrected evLock [] [2, 7] [] (mkDoorman (some LOCK_STATE) []) 0 0
    exFresh exFresh histTwo [UNLOCK_STATE, LOCK_STATE] (by decide) rfl

theorem stateEnumLookup_range (k v : String)
    (h : stateEnumLookup k = some v) :
    v = LOCK_STATE ∨ v = UNLOCK_STATE := by
  unfold stateEnumLookup at h
  rcases Option.map_eq_some'.mp h with ⟨p, hfind, hv⟩
  have hmem : p ∈ STATE_ENUM := List.mem_of_find?_eq_some hfind
  simp only [STATE_ENUM, List.mem_cons, List.not_mem_nil, or_false] at hmem
  rcases hmem with rfl | rfl | rfl | rfl | rfl
  · exact Or.inl hv.symm
  · exact Or.inr hv.symm
  · exact Or.inl hv.symm
  · exact Or.inr hv.symm
  · exact Or.inr hv.symm

theorem processEvents_range (evs : List HistoryEvent) :
    ∀ (ids ids' : List Nat) (sts out : List String),
      (∀ s ∈ sts, s = LOCK_STATE ∨ s = UNLOCK_STATE) →
      processEvents evs ids sts = (ids', Except.ok out) →
      ∀ s ∈ out, s = LOCK_STATE ∨ s = UNLOCK_STATE := by
  induction evs with
  | nil =>
    intro ids ids' sts out hsts h s hs
    injection h with h1 h2
    injection h2 with h3
    rw [← h3] at hs
    exact hsts s hs
  | cons e rest ih =>
    intro ids ids' sts out hsts h s hs
    by_cases htype : e.type = "device_type.door_lock"
    · by_cases hseen : e.report_id ∈ ids
      · rw [processEvents_cons_seen e rest ids sts hseen] at h
        exact ih ids ids' sts out hsts h s hs
      · by_cases hinfo : e.event_type ∈ NON_LOCK_EVENT.map Prod.fst
        · rw [processEvents_cons_nonLock e rest ids sts htype hseen hinfo] at h
          exact ih _ ids' sts out hsts h s hs
        · cases hlook : stateEnumLookup e.event_type with
          | none =>
            rw [processEvents_cons_badCode e rest ids sts htype hseen hinfo hlook] at h
            injection h with h1 h2
            exact absurd h2 (by simp)
          | some st =>
            rw [processEvents_cons_new e rest ids sts st htype hseen hinfo hlook] at h
            refine ih _ ids' (sts ++ [st]) out ?_ h s hs
            intro s' hs'
            rcases List.mem_append.mp hs' with h' | h'
            · exact hsts s' h'
            · rw [List.mem_singleton.mp h']
              exact stateEnumLookup_range e.event_type st hlook
    · rw [processEvents_cons_notDoor e rest ids sts htype] at h
      exact ih ids ids' sts out hsts h s hs

/-- C10: every element of a sequence returned by `get_state_history` is
either "device_status.lock" or "device_status.unlock" (the range of
`STATE_ENUM`); no raw or unrecognized vendor string is ever emitted. -/
theorem C10_range (d : Doorman) (now : Int) (resp : LoginResponse)
    (hresp : HttpResponse HistoryBody) (d' : Doorman) (out : List String)
    (h : d.get_state_history now resp hresp = (d', Except.ok out)) :
    ∀ s ∈ out, s = LOCK_STATE ∨ s = UNLOCK_STATE := by
  by_cases h200 : hresp.status_code = 200
  · by_cases hmsg : hresp.body.message = "OK!"
    · rw [get_state_history_ok d now resp hresp h200 hmsg] at h
      have h2 : (processEvents hresp.body.data d.report_ids []).2
          = Except.ok out := congrArg Prod.snd h
      have heq : processEvents hresp.body.data d.report_ids []
          = ((processEvents hresp.body.data d.report_ids []).1, Except.ok out) := by
        rw [← h2]
      exact processEvents_range hresp.body.data d.report_ids _ [] out
        (by intro s hs; exact absurd hs (List.not_mem_nil s)) heq
    · have h1 : d.get_state_history now resp hresp
          = ((d.validate_access_token now resp).1, Except.ok []) := by
        simp only [Doorman.get_state_history]
        rw [if_pos h200, if_neg hmsg]
      rw [h1] at h
      have h2 : Except.ok ([] : List String) = Except.ok out := congrArg Prod.snd h
      injection h2 with h3
      rw [← h3]
      intro s hs
      exact absurd hs (List.not_mem_nil s)
  · have h1 : d.get_state_history now resp hresp
        = ((d.validate_access_token now resp).1,
           Except.error (PyError.unboundLocal "states")) := by
      simp only [Doorman.get_state_history]
      rw [if_neg h200]
    rw [h1] at h
    have h2 := congrArg Prod.snd h
    exact absurd h2 (by simp)

/-- C10, witness: the first element of the two-event fixture run is in the
two-valued range. -/
theorem C10_witness :
    UNLOCK_STATE = LOCK_STATE ∨ UNLOCK_STATE = UNLOCK_STATE := by
  refine C10_range (mkDoorman (some LOCK_STATE) []) 0 exFresh histTwo
    (mkDoorman (some LOCK_STATE) [1, 2]) [UNLOCK_STATE, LOCK_STATE] rfl
    UNLOCK_STATE ?_
  exact List.mem_cons_self UNLOCK_STATE [LOCK_STATE]
